import Mathlib

/-!
Verification development for the KanbanView Things3 read-only query engine,
a shallow embedding of `src/things3/things3.py` and `src/things3/things3_api.py`.

The relational store (SQLite) is modelled as in-memory lists of rows; SQL
`NULL` becomes `Option`, SQL integer columns become `Nat`/`Int`.  The
`TMTaskTag` join table is not embedded: none of the verified claims concern
tag-membership views, and in `get_rows` the tag join only multiplies rows that
`SELECT DISTINCT` collapses again.
-/

namespace Things3

/-- A row of the `TMTask` table, with the columns the engine reads.
Timestamps are unix-epoch seconds (`Int`); `type`, `status`, `trashed` and
`start` are the raw integer codes used by the SQL predicates
(`type = 0` task / `1` project / `2` heading; `status = 0` open / `2`
cancelled / `3` done; `start = 0` inbox / `1` anytime / `2` someday). -/
structure TaskRow where
  uuid : String
  title : Option String
  type : Nat
  status : Nat
  trashed : Nat
  start : Nat
  startDate : Option Int
  dueDate : Option Int
  stopDate : Option Int
  creationDate : Option Int
  userModificationDate : Option Int
  recurrenceRule : Option String
  project : Option String
  area : Option String
  actionGroup : Option String
  todayIndex : Int
deriving DecidableEq, Repr

/-- A row of the `TMArea` table. -/
structure AreaRow where
  uuid : String
  title : Option String
deriving DecidableEq, Repr

/-- An output record of `Things3.get_rows` (the `SELECT DISTINCT` projection);
date-valued columns are rendered as day numbers instead of `date(...)` text. -/
structure TaskRec where
  uuid : String
  title : Option String
  context : Option String
  context_uuid : Option String
  due : Option Int
  created : Option Int
  modified : Option Int
  started : Option Int
  stopped : Option Int
  size : Nat
  type : Option String
deriving DecidableEq, Repr

/-- Model of `random.shuffle` from `Things3.anonymize_string`: the element kept
next is chosen by the entropy stream `seed`, so every seed realises one of the
permutations the library routine can produce. -/
def shuffleList (seed : List Nat) (l : List Char) : List Char :=
  if h : l = [] then []
  else
    have hlen : 0 < l.length := List.length_pos.mpr h
    have hi : seed.headD 0 % l.length < l.length := Nat.mod_lt _ hlen
    l.get ⟨seed.headD 0 % l.length, hi⟩ ::
      shuffleList seed.tail (l.eraseIdx (seed.headD 0 % l.length))
termination_by l.length
decreasing_by
  have := List.length_eraseIdx_add_one hi
  omega

/-- `Things3.anonymize_string`: `None` passes through; otherwise the characters
are shuffled and rejoined. -/
def anonymize_string (seed : List Nat) : Option String → Option String
  | none => none
  | some s => some (String.mk (shuffleList seed s.data))

/-- `Things3.anonymize_tasks`: when the anonymize toggle is on, replace the
`title` and `context` fields of every record by their scrambled versions.
The single `seed` stands for the global PRNG state; every stated property is
proved for all seeds, so sharing one stream across calls loses no generality. -/
def anonymize_tasks (seed : List Nat) (anonymize : Bool) (tasks : List TaskRec) :
    List TaskRec :=
  if anonymize then
    tasks.map (fun t =>
      { t with title := anonymize_string seed t.title,
               context := anonymize_string seed t.context })
  else tasks

/-- Outcome of `Things3.execute_query`: either the fetched (and possibly
anonymized) rows are returned, or the process is terminated via `sys.exit`. -/
inductive ExecResult where
  | ok (tasks : List TaskRec)
  | exit (code : Nat)
deriving DecidableEq, Repr

/-- `Things3.execute_query`, translated from source: `fetch` is the outcome of
opening and reading the SQLite store.  On success the rows pass through
`anonymize_tasks` and are returned; on `sqlite3.OperationalError` the code
prints a diagnostic and calls `sys.exit(2)` — inside the adapter itself. -/
def execute_query (seed : List Nat) (anonymize : Bool)
    (fetch : Except String (List TaskRec)) : ExecResult :=
  match fetch with
  | .ok tasks => .ok (anonymize_tasks seed anonymize tasks)
  | .error _ => .exit 2

/-- `Things3.get_not_implemented`: the payload returned for unknown view
names, one dictionary with a single `title` key. -/
def get_not_implemented : List (List (String × String)) :=
  [[("title", "not implemented")]]

/-- The keys of the `Things3.functions` dispatch table, in source order. -/
def functions : List String :=
  ["inbox", "today", "next", "backlog", "upcoming", "waiting", "mit",
   "completed", "cancelled", "trashed", "projects", "areas", "all", "due",
   "lint", "empty", "cleanup", "top-proj", "stats-day", "stats-min-today"]

/-- An HTTP response of the API layer: the JSON body (a list of dictionaries)
and the status code. -/
structure ApiResponse where
  response : List (List (String × String))
  status : Nat
deriving DecidableEq, Repr

/-- `Things3API.api`, translated from source: a command found in the function
table runs its view (`run`, standing for the bound engine method); any other
command gets the `get_not_implemented` payload, returned as a normal response
value with status 404 — the function table is not consulted further and the
store is never touched. -/
def api (run : String → List (List (String × String))) (command : String) :
    ApiResponse :=
  if functions.contains command then ⟨run command, 200⟩
  else ⟨get_not_implemented, 404⟩

/-- Pythonic truthiness of an optional string: present and non-empty. -/
def truthyStr : Option String → Bool
  | none => false
  | some s => !s.isEmpty

/-- `Things3.get_from_config`, translated from source: `result = None`;
`if variable is not None` take the explicit argument; `elif` the environment
variable is truthy take it; `elif` the key is present in the config file take
its value. -/
def get_from_config (varArg envValue configValue : Option String) :
    Option String :=
  if varArg.isSome then varArg
  else if truthyStr envValue then envValue
  else if configValue.isSome then configValue
  else none

/-- The `cfg if cfg else default` idiom of `Things3.__init__`: a falsy lookup
result (absent or empty) keeps the class-level default. -/
def ifTruthy (r : Option String) (dflt : String) : String :=
  match r with
  | some s => if s.isEmpty then dflt else s
  | none => dflt

/-- The three sources `Things3.__init__` consults for one configuration key:
the explicit constructor argument, the environment variable, and the
config-file entry. -/
structure KeyInputs where
  arg : Option String
  env : Option String
  cfg : Option String
deriving DecidableEq, Repr

/-- Effective value of one string-valued configuration key after
`Things3.__init__`: `get_from_config` then the falsy-default fallback. -/
def effectiveKey (k : KeyInputs) (dflt : String) : String :=
  ifTruthy (get_from_config k.arg k.env k.cfg) dflt

/-- Effective anonymize setting: the class default is the boolean `False`, so
a falsy lookup result is modelled as `none` (default off) and a truthy string
as `some`. -/
def effectiveAnonymize (k : KeyInputs) : Option String :=
  match get_from_config k.arg k.env k.cfg with
  | some s => if s.isEmpty then none else some s
  | none => none

/-- The class-level default store path (`FILE_DB` under the user's home). -/
def FILE_DB : String :=
  "/Library/Containers/com.culturedcode.ThingsMac/Data/Library/Application Support/Cultured Code/Things/Things.sqlite3"

/-- The settings `Things3.__init__` leaves on the instance. -/
structure Settings where
  tag_waiting : String
  tag_mit : String
  tag_cleanup : String
  database : String
  anonymize : Option String
deriving DecidableEq, Repr

/-- `Things3.__init__`, translated from source: each configuration key runs
through `get_from_config` with its own three sources and falls back to the
class-level default when the result is falsy. -/
def things3_init (user : String) (w a m c d : KeyInputs) : Settings :=
  { tag_waiting := effectiveKey w "Waiting"
    anonymize := effectiveAnonymize a
    tag_mit := effectiveKey m "MIT"
    tag_cleanup := effectiveKey c "Cleanup"
    database := effectiveKey d ("/Users/" ++ user ++ FILE_DB) }

/-- The scope filter stored in `Things3.filter`: the empty string, or the SQL
fragment written by `Things3API.api_filter` for an area or a project scope. -/
inductive Filter where
  | empty
  | area (uuid : String)
  | project (uuid : String)
deriving DecidableEq, Repr

/-- `Things3API.api_filter`, translated from source: two independent
`if`-statements, each firing only for its own mode string and a non-empty
uuid; when neither fires the stored filter is left as it was.  The call
always answers status 200. -/
def api_filter (current : Filter) (mode uuid : String) : Filter × Nat :=
  let f1 := if mode == "area" && uuid != "" then Filter.area uuid else current
  let f2 := if mode == "project" && uuid != "" then Filter.project uuid else f1
  (f2, 200)

/-- `Things3API.api_filter_reset`: the stored filter becomes the empty
string. -/
def api_filter_reset (_ : Filter) : Filter × Nat :=
  (Filter.empty, 200)

/-- The two values the mutable `Things3.IS_TASK` predicate can hold:
`MODE_TASK` (`type = 0`) or `MODE_PROJECT` (`type = 1`). -/
inductive Mode where
  | task
  | project
deriving DecidableEq, Repr

/-- The `type` code a mode makes the `IS_TASK` predicate compare against. -/
def modeType : Mode → Nat
  | .task => 0
  | .project => 1

/-- `Things3.mode_task`: sets `IS_TASK` to `MODE_TASK`. -/
def mode_task (_ : Mode) : Mode := .task

/-- `Things3.mode_project`: sets `IS_TASK` to `MODE_PROJECT`. -/
def mode_project (_ : Mode) : Mode := .project

/-- Modelled from the spec: `Things3.toggle_mode` is called by
`Things3API.api_toggle` but is absent from `src/things3/things3.py` (which
only defines `mode_task` and `mode_project`).  Per the spec, the mode is
either task (default) or project and toggling switches which `type` code the
task-kind predicates resolve against, for all subsequent calls until toggled
again. -/
def toggle_mode : Mode → Mode
  | .task => .project
  | .project => .task

/-- The process-scoped mutable overlay state of the engine: the display mode
and the scope filter. -/
structure EngineState where
  mode : Mode
  filter : Filter
deriving DecidableEq, Repr

/-- `Things3API.api_toggle`: toggles the mode, answers status 200. -/
def api_toggle (s : EngineState) : EngineState × Nat :=
  ({ s with mode := toggle_mode s.mode }, 200)

/-- The store snapshot a query executes against. -/
structure Database where
  tasks : List TaskRow
  areas : List AreaRow
deriving DecidableEq, Repr

/-- A `LEFT OUTER JOIN ... ON ref = row.uuid` against the task table: `none`
when the reference is `NULL` or matches no row. -/
def lookupTask (db : List TaskRow) (ref : Option String) : Option TaskRow :=
  ref.bind (fun r => db.find? (fun t => t.uuid == r))

/-- The `PROJECT` join of `get_rows`: `TASK.project = PROJECT.uuid`. -/
def joinProject (db : List TaskRow) (t : TaskRow) : Option TaskRow :=
  lookupTask db t.project

/-- The `HEADING` join of `get_rows`: `TASK.actionGroup = HEADING.uuid`. -/
def joinHeading (db : List TaskRow) (t : TaskRow) : Option TaskRow :=
  lookupTask db t.actionGroup

/-- The `HEADPROJ` join of `get_rows`: `HEADING.project = HEADPROJ.uuid`. -/
def joinHeadProj (db : List TaskRow) (t : TaskRow) : Option TaskRow :=
  lookupTask db ((joinHeading db t).bind (fun h => h.project))

/-- The `AREA` join of `get_rows`: `TASK.area = AREA.uuid`. -/
def joinArea (areas : List AreaRow) (t : TaskRow) : Option AreaRow :=
  t.area.bind (fun r => areas.find? (fun a => a.uuid == r))

/-- The `title` column of a left-joined task row: `NULL` when the join found
no row or the row has a `NULL` title. -/
def colTitle (c : Option TaskRow) : Option String :=
  c.bind (fun p => p.title)

/-- The `title` column of the left-joined `AREA` row. -/
def colTitleA (a : Option AreaRow) : Option String :=
  a.bind (fun r => r.title)

/-- The `context` CASE of `get_rows`: `AREA.title` when not `NULL`, else
`PROJECT.title` when not `NULL`, else `HEADING.title` when not `NULL`, else
`NULL`. -/
def contextOf (area : Option AreaRow) (project heading : Option TaskRow) :
    Option String :=
  if (colTitleA area).isSome then colTitleA area
  else if (colTitle project).isSome then colTitle project
  else if (colTitle heading).isSome then colTitle heading
  else none

/-- The `context_uuid` CASE of `get_rows`: `AREA.uuid` when not `NULL`, else
`PROJECT.uuid` when not `NULL`, else `NULL` — it has no `HEADPROJ` branch. -/
def contextUuidOf (area : Option AreaRow) (project : Option TaskRow) :
    Option String :=
  if area.isSome then area.map (fun r => r.uuid)
  else if project.isSome then project.map (fun r => r.uuid)
  else none

/-- SQLite `date(ts, "unixepoch")` at day granularity: the day number of an
epoch timestamp. -/
def dayOf (ts : Int) : Int := Int.fdiv ts 86400

/-- The `due` CASE of `get_rows`: the due date unless a recurrence rule is
present. -/
def dueOf (t : TaskRow) : Option Int :=
  if t.recurrenceRule.isNone then t.dueDate.map dayOf else none

/-- The correlated `size` subquery of `get_rows` (also the `tasks` count of
`get_largest_projects`): `COUNT(uuid)` over rows whose `project` column equals
the given uuid and that are non-trashed and open — with no restriction on the
`type` column. -/
def countOpenChildren (db : List TaskRow) (uuid : String) : Nat :=
  (db.filter (fun c =>
    c.project == some uuid && c.trashed == 0 && c.status == 0)).length

/-- The `type` CASE of `get_rows`. -/
def typeName (t : TaskRow) : Option String :=
  if t.type == 0 then some "task"
  else if t.type == 1 then some "project"
  else if t.type == 2 then some "heading"
  else none

/-- The `SELECT DISTINCT` projection of `Things3.get_rows` for one task row,
with all four outer joins resolved against the snapshot. -/
def rowOf (db : Database) (t : TaskRow) : TaskRec :=
  { uuid := t.uuid
    title := t.title
    context := contextOf (joinArea db.areas t) (joinProject db.tasks t)
      (joinHeading db.tasks t)
    context_uuid := contextUuidOf (joinArea db.areas t) (joinProject db.tasks t)
    due := dueOf t
    created := t.creationDate.map dayOf
    modified := t.userModificationDate.map dayOf
    started := t.startDate.map dayOf
    stopped := t.stopDate.map dayOf
    size := countOpenChildren db.tasks t.uuid
    type := typeName t }

/-- The overlay conjunct `Things3.get_rows` prepends (`WHERE {self.filter}
...`): empty filter adds nothing; an area filter requires `TASK.area = uuid`;
a project filter requires `TASK.project = uuid OR HEADING.project = uuid`. -/
def filterCond (f : Filter) (db : List TaskRow) (t : TaskRow) : Bool :=
  match f with
  | .empty => true
  | .area u => t.area == some u
  | .project u =>
      t.project == some u || ((joinHeading db t).bind (fun h => h.project)) == some u

/-- The WHERE condition of `Things3.get_anytime`, translated from both query
texts in the source: `isTaskType` is the `type` code the mutable `IS_TASK`
predicate currently compares against, `filterActive` tells whether
`self.filter` is a non-empty string (which selects the second, weaker query
text).  A left-joined container column compared against a constant is `NULL`
(hence not satisfied) when the join found no row. -/
def get_anytime_condition (isTaskType : Nat) (filterActive : Bool)
    (t : TaskRow) (project headproj : Option TaskRow) : Bool :=
  if filterActive then
    t.trashed == 0 && t.type == isTaskType && t.status == 0 &&
    t.start == 1 && t.startDate.isNone &&
    (((colTitle project).isNone ||
        (match project with
         | some p => p.trashed == 0
         | none => false)) &&
     ((colTitle headproj).isNone ||
        (match headproj with
         | some p => p.trashed == 0
         | none => false)))
  else
    t.trashed == 0 && t.type == isTaskType && t.status == 0 &&
    t.start == 1 && t.startDate.isNone &&
    (((colTitle project).isNone ||
        (match project with
         | some p => p.start == 1 && p.startDate.isNone && p.trashed == 0
         | none => false)) &&
     ((colTitle headproj).isNone ||
        (match headproj with
         | some p => p.start == 1 && p.startDate.isNone && p.trashed == 0
         | none => false)))

/-- An output record of `Things3.get_largest_projects`. -/
structure ProjRec where
  uuid : String
  title : Option String
  created : Option Int
  modified : Option Int
  tasks : Nat
deriving DecidableEq, Repr

/-- `Things3.get_largest_projects`, translated from source: non-trashed open
projects, each with the correlated open-children count as `tasks`, ordered by
that count descending (`ORDER BY tasks DESC`). -/
def get_largest_projects (db : List TaskRow) : List ProjRec :=
  ((db.filter (fun t => t.trashed == 0 && t.status == 0 && t.type == 1)).map
    (fun t => ProjRec.mk t.uuid t.title (t.creationDate.map dayOf)
      (t.userModificationDate.map dayOf)
      (countOpenChildren db t.uuid))).insertionSort
    (fun a b => b.tasks ≤ a.tasks)

/-- One output row of `Things3.get_daystats`: the calendar day and the four
activity counts, each `NULL` when the LEFT JOIN found no aggregate row for
that day. -/
structure DayRow where
  date : Int
  created : Option Nat
  completed : Option Nat
  cancelled : Option Nat
  trashed : Option Nat
deriving DecidableEq, Repr

/-- One aggregation subquery of `get_daystats`: the number of task-table rows
whose selected timestamp column falls on day `d` and that satisfy the
subquery's WHERE clause. -/
def countOn (db : List TaskRow) (col : TaskRow → Option Int)
    (cond : TaskRow → Bool) (d : Int) : Nat :=
  (db.filter (fun t => cond t && (col t).map dayOf == some d)).length

/-- LEFT JOIN against a grouped aggregate: a day with no matching group keeps
`NULL`, a day with a group keeps its count. -/
def leftJoinCount (n : Nat) : Option Nat :=
  if n == 0 then none else some n

/-- `Things3.get_daystats`, translated from source: the recursive `timeseries`
CTE yields `x = 0 .. 364` (`LIMIT 365`), each row's date is
`date(julianday("now", "-365 days"), "+x days")`, i.e. `today - 365 + x`, and
the four counts come from LEFT JOINs against per-day aggregates over created
(`type = 0`), completed (`status = 3`), cancelled (`status = 2`) and trashed
(`trashed = 1`) task rows. -/
def get_daystats (today : Int) (db : List TaskRow) : List DayRow :=
  (List.range 365).map (fun (x : Nat) =>
    let d : Int := today - 365 + (x : Int)
    { date := d
      created := leftJoinCount (countOn db (fun t => t.creationDate)
        (fun t => t.type == 0) d)
      completed := leftJoinCount (countOn db (fun t => t.stopDate)
        (fun t => t.status == 3 && t.type == 0) d)
      cancelled := leftJoinCount (countOn db (fun t => t.stopDate)
        (fun t => t.status == 2 && t.type == 0) d)
      trashed := leftJoinCount (countOn db (fun t => t.userModificationDate)
        (fun t => t.trashed == 1 && t.type == 0) d) })

/-! Spec-worded definitions, written from the specification text rather than
the source, for comparing the two (refinement claims and counterexamples). -/

/-- Spec wording for the configuration priority asserted by the claim:
environment first, then config-file entry, then explicit argument. -/
def claimed_priority (varArg envValue configValue : Option String) :
    Option String :=
  if truthyStr envValue then envValue
  else if configValue.isSome then configValue
  else if varArg.isSome then varArg
  else none

/-- The priority order the source actually implements, worded independently:
the first available of the explicit argument, the (truthy) environment
variable, and the config-file entry. -/
def amended_priority (varArg envValue configValue : Option String) :
    Option String :=
  ([varArg, if truthyStr envValue then envValue else none,
    configValue].find? (fun o => o.isSome)).join

/-- Spec wording for the context title: the area title when the area is set
and resolvable, else the project title, else the heading title, else
absent. -/
def claim_context (area : Option AreaRow) (project heading : Option TaskRow) :
    Option String :=
  match colTitleA area with
  | some s => some s
  | none =>
    match colTitle project with
    | some s => some s
    | none => colTitle heading

/-- Spec wording for the context id asserted by the claim: the area id when
set, else the project id, else — when only a heading is set — the id of the
heading's own project if any, else absent. -/
def claimed_contextUuid (area : Option AreaRow)
    (project heading headproj : Option TaskRow) : Option String :=
  match area with
  | some a => some a.uuid
  | none =>
    match project with
    | some p => some p.uuid
    | none =>
      match heading with
      | some _ => headproj.map (fun r => r.uuid)
      | none => none

/-- The context id the source actually computes, worded independently: the
area id when the area join matched, else the project id when the project join
matched, else absent — never taken from the heading's project. -/
def amended_contextUuid (area : Option AreaRow) (project : Option TaskRow) :
    Option String :=
  match area with
  | some a => some a.uuid
  | none => project.map (fun r => r.uuid)

/-- Spec wording for the task-level anytime conditions: open, of the current
task kind, schedule class anytime, not scheduled, not trashed. -/
def claim_taskLevel (isTaskType : Nat) (t : TaskRow) : Bool :=
  t.status == 0 && t.type == isTaskType && t.start == 1 &&
  t.startDate.isNone && t.trashed == 0

/-- A container is present (in the sense the queries can observe) when its
left-joined `title` column is not `NULL`. -/
def claim_present (c : Option TaskRow) : Bool :=
  (colTitle c).isSome

/-- Spec wording for the strict container condition of the unscoped anytime
view: each present container is schedule class anytime, has no scheduled
date and is not trashed; a missing container passes vacuously. -/
def claim_containerStrict (c : Option TaskRow) : Bool :=
  if claim_present c then
    match c with
    | some p => p.start == 1 && p.startDate.isNone && p.trashed == 0
    | none => false
  else true

/-- Spec wording for the weakened container condition of the scoped anytime
view: each present container is merely not trashed. -/
def claim_containerWeak (c : Option TaskRow) : Bool :=
  if claim_present c then
    match c with
    | some p => p.trashed == 0
    | none => false
  else true

/-- Spec wording for the largest-projects child count asserted by the claim:
children that are non-trashed, open, of non-project kind, and whose parent
project reference equals the project id. -/
def claimed_childCount (db : List TaskRow) (uuid : String) : Nat :=
  (db.filter (fun c =>
    c.project == some uuid && c.trashed == 0 && c.status == 0 &&
    !(c.type == 1))).length

/-- The child count the source actually reports, worded independently:
children of any kind that are non-trashed and open and whose parent project
reference equals the project id. -/
def amended_childCount (db : List TaskRow) (uuid : String) : Nat :=
  db.countP (fun c => c.project == some uuid && c.trashed == 0 && c.status == 0)

/-! Concrete rows used by counterexamples and witnesses. -/

/-- A task row with every nullable column `NULL` and every code zero. -/
def blankTask : TaskRow :=
  { uuid := "", title := none, type := 0, status := 0, trashed := 0,
    start := 0, startDate := none, dueDate := none, stopDate := none,
    creationDate := none, userModificationDate := none, recurrenceRule := none,
    project := none, area := none, actionGroup := none, todayIndex := 0 }

/-- A task whose only container link is a heading. -/
def exHeadedTask : TaskRow :=
  { blankTask with uuid := "t1", title := some "a task", actionGroup := some "h1" }

/-- The heading owning `exHeadedTask`, itself owned by a project. -/
def exHeading : TaskRow :=
  { blankTask with
    uuid := "h1", title := some "a heading", type := 2,
    project := some "hp1" }

/-- The project owning `exHeading`. -/
def exHeadProj : TaskRow :=
  { blankTask with uuid := "hp1", title := some "a project", type := 1 }

/-- Snapshot for the context-resolution counterexample. -/
def exDb2 : Database :=
  { tasks := [exHeadedTask, exHeading, exHeadProj], areas := [] }

/-- An open, non-trashed project with one project-kind child. -/
def exParentProj : TaskRow :=
  { blankTask with uuid := "p", title := some "parent", type := 1 }

/-- An open, non-trashed child of `exParentProj` that is itself of project
kind. -/
def exChildProj : TaskRow :=
  { blankTask with
    uuid := "c", title := some "child", type := 1,
    project := some "p" }

/-- Snapshot for the largest-projects counterexample. -/
def exDb8 : List TaskRow := [exParentProj, exChildProj]

/-! Helper lemmas. -/

/-- Removing the element at a valid index and re-consing it permutes the
list. -/
theorem getElem_cons_eraseIdx_perm (l : List Char) (i : Nat) (h : i < l.length) :
    List.Perm (l[i] :: l.eraseIdx i) l :=
  ((List.perm_cons_erase (l.getElem_mem h)).trans
    ((List.erase_getElem h).cons l[i])).symm

/-- Fuel-indexed form of `shuffleList_perm`, proved by induction on the fuel. -/
theorem shuffleList_perm_aux :
    ∀ (n : Nat) (seed : List Nat) (l : List Char), l.length ≤ n →
      List.Perm (shuffleList seed l) l := by
  intro n
  induction n with
  | zero =>
    intro seed l hl
    have : l = [] := List.length_eq_zero.mp (Nat.le_zero.mp hl)
    subst this
    rw [shuffleList]
    simp
  | succ n ih =>
    intro seed l hl
    rw [shuffleList]
    by_cases h : l = []
    · simp [h]
    · simp only [dif_neg h]
      have hlen : 0 < l.length := List.length_pos.mpr h
      have hi : seed.headD 0 % l.length < l.length := Nat.mod_lt _ hlen
      have hle : (l.eraseIdx (seed.headD 0 % l.length)).length ≤ n := by
        have := List.length_eraseIdx_add_one hi
        omega
      have tail_perm := ih seed.tail (l.eraseIdx (seed.headD 0 % l.length)) hle
      exact (tail_perm.cons _).trans (getElem_cons_eraseIdx_perm l _ hi)

/-- A shuffle is a permutation of its input, for every entropy stream. -/
theorem shuffleList_perm (seed : List Nat) (l : List Char) :
    List.Perm (shuffleList seed l) l :=
  shuffleList_perm_aux l.length seed l (Nat.le_refl _)

/-- The source priority of `get_from_config` (argument, then environment, then
config file) agrees with `amended_priority`. -/
theorem get_from_config_eq_amended (v e c : Option String) :
    get_from_config v e c = amended_priority v e c := by
  rcases v with _ | v
  · rcases e with _ | s
    · rcases c with _ | c <;>
        simp [get_from_config, amended_priority, truthyStr, List.find?]
    · cases hs : s.isEmpty <;> rcases c with _ | c <;>
        simp [get_from_config, amended_priority, truthyStr, hs, List.find?]
  · simp [get_from_config, amended_priority, List.find?]

/-- The strict container disjunction of the unscoped anytime query text equals
the spec-worded strict container condition. -/
theorem containerStrict_eq (c : Option TaskRow) :
    ((colTitle c).isNone ||
      (match c with
       | some p => p.start == 1 && p.startDate.isNone && p.trashed == 0
       | none => false)) = claim_containerStrict c := by
  rcases c with _ | p
  · simp [colTitle, claim_containerStrict, claim_present]
  · rcases ht : p.title with _ | s <;>
      simp [colTitle, claim_containerStrict, claim_present, ht]

/-- The weak container disjunction of the scoped anytime query text equals the
spec-worded weak container condition. -/
theorem containerWeak_eq (c : Option TaskRow) :
    ((colTitle c).isNone ||
      (match c with
       | some p => p.trashed == 0
       | none => false)) = claim_containerWeak c := by
  rcases c with _ | p
  · simp [colTitle, claim_containerWeak, claim_present]
  · rcases ht : p.title with _ | s <;>
      simp [colTitle, claim_containerWeak, claim_present, ht]

/-- The `context` CASE of `get_rows` implements the spec-worded title
priority. -/
theorem contextOf_eq (a : Option AreaRow) (p h : Option TaskRow) :
    contextOf a p h = claim_context a p h := by
  rcases ha : colTitleA a with _ | s1 <;>
    rcases hp : colTitle p with _ | s2 <;>
      rcases hh : colTitle h with _ | s3 <;>
        simp [contextOf, claim_context, ha, hp, hh]

/-- The `context_uuid` CASE of `get_rows` implements the amended id
priority. -/
theorem contextUuidOf_eq (a : Option AreaRow) (p : Option TaskRow) :
    contextUuidOf a p = amended_contextUuid a p := by
  rcases a with _ | a <;> rcases p with _ | p <;>
    simp [contextUuidOf, amended_contextUuid]

/-! Claim theorems. -/

/-- C1, counterexample: on a store that cannot be opened, the adapter
`execute_query` itself terminates the process (`sys.exit(2)`), so the claim
that it returns a typed `StoreUnavailable` failure and never exits inside the
adapter is false at this concrete input. -/
theorem execute_query_exits_inside_adapter :
    execute_query [] false (Except.error "unable to open database file") =
      ExecResult.exit 2 := rfl

/-- C1, amended: when the underlying store cannot be opened or read, the
adapter `execute_query` prints a diagnostic and exits the process with code 2
itself, for every entropy stream, anonymize setting and error message; no
typed failure is returned to the caller. -/
theorem execute_query_exit_on_store_failure :
    ∀ (seed : List Nat) (anonymize : Bool) (msg : String),
      execute_query seed anonymize (Except.error msg) = ExecResult.exit 2 := by
  intro seed anonymize msg
  rfl

/-- C2, counterexample: for a task whose only container link is a heading
whose own project exists, the returned `context_uuid` is `NULL` while the
claimed resolution (heading set → heading's own project id) yields that
project's id, so the claimed id-priority is false on the code. -/
theorem context_uuid_ignores_heading_project_cex :
    (rowOf exDb2 exHeadedTask).context_uuid = none ∧
    claimed_contextUuid (joinArea exDb2.areas exHeadedTask)
      (joinProject exDb2.tasks exHeadedTask)
      (joinHeading exDb2.tasks exHeadedTask)
      (joinHeadProj exDb2.tasks exHeadedTask) = some "hp1" ∧
    (rowOf exDb2 exHeadedTask).context = some "a heading" := by
  refine ⟨rfl, rfl, rfl⟩

/-- C2, amended: for every task row produced by `get_rows`, the context title
follows the strict priority area title, else project title, else heading
title, else absent; and the context id is the area's id if the area join
matched, else the project's id, else absent — it is never taken from the
heading's own project. -/
theorem context_resolution_amended :
    ∀ (db : Database) (t : TaskRow),
      (rowOf db t).context = claim_context (joinArea db.areas t)
        (joinProject db.tasks t) (joinHeading db.tasks t) ∧
      (rowOf db t).context_uuid = amended_contextUuid (joinArea db.areas t)
        (joinProject db.tasks t) := by
  intro db t
  exact ⟨contextOf_eq _ _ _, contextUuidOf_eq _ _⟩

/-- C3, counterexample: on an empty store with today = day 1000, the last
daystats row is for day 999 — the window ends yesterday, not today — and its
activity counts are `NULL`, not zero; both parts contradict the claim. -/
theorem daystats_window_and_null_counts_cex :
    (get_daystats 1000 []).getLast? =
      some { date := 999, created := none, completed := none,
             cancelled := none, trashed := none } ∧
    (999 : Int) ≠ 1000 := by
  refine ⟨by decide, by decide⟩

/-- C3, amended: the daily-activity-stats view always returns exactly 365
rows with contiguous dates and no gaps, but the window runs from today − 365
to today − 1 (ending yesterday, not today), and a day with no activity
appears with `NULL` (absent) counts for created, completed, cancelled and
trashed — not with zeros. -/
theorem daystats_amended :
    ∀ (today : Int) (db : List TaskRow),
      (get_daystats today db).length = 365 ∧
      (∀ i : Nat, i < 365 →
        ((get_daystats today db)[i]?.map DayRow.date) =
          some (today - 365 + i)) ∧
      (∀ i : Nat, i < 365 →
        (countOn db (fun t => t.creationDate) (fun t => t.type == 0)
            (today - 365 + i) = 0 →
          ((get_daystats today db)[i]?.map DayRow.created) = some none) ∧
        (countOn db (fun t => t.stopDate)
            (fun t => t.status == 3 && t.type == 0) (today - 365 + i) = 0 →
          ((get_daystats today db)[i]?.map DayRow.completed) = some none) ∧
        (countOn db (fun t => t.stopDate)
            (fun t => t.status == 2 && t.type == 0) (today - 365 + i) = 0 →
          ((get_daystats today db)[i]?.map DayRow.cancelled) = some none) ∧
        (countOn db (fun t => t.userModificationDate)
            (fun t => t.trashed == 1 && t.type == 0) (today - 365 + i) = 0 →
          ((get_daystats today db)[i]?.map DayRow.trashed) = some none)) := by
  intro today db
  refine ⟨?_, ?_, ?_⟩
  · simp only [get_daystats, List.length_map, List.length_range]
  · intro i hi
    unfold get_daystats
    rw [List.getElem?_map, List.getElem?_range hi]
    rfl
  · intro i hi
    refine ⟨?_, ?_, ?_, ?_⟩ <;>
      · intro hzero
        unfold get_daystats
        rw [List.getElem?_map, List.getElem?_range hi]
        simp [leftJoinCount, hzero]

/-- C3, witness for the amended theorem at today = 1000 on the empty store:
365 rows, the first row is for day 635, and with no activity its created
count is `NULL`. -/
theorem daystats_amended_witness :
    (get_daystats 1000 []).length = 365 ∧
    ((get_daystats 1000 [])[0]?.map DayRow.date) = some 635 ∧
    ((get_daystats 1000 [])[0]?.map DayRow.created) = some none := by
  obtain ⟨h1, h2, h3⟩ := daystats_amended 1000 []
  refine ⟨h1, ?_, ?_⟩
  · have := h2 0 (by norm_num)
    simpa using this
  · have := (h3 0 (by norm_num)).1 (by decide)
    simpa using this

/-- C4: for every view name missing from the function table (such as
"nonexistent"), the dispatcher returns exactly one record equal to
`{title: "not implemented"}` as a normal response value — the view table is
the only thing consulted, so the result does not depend on the store at all
and no failure can occur. -/
theorem api_unknown_view_soft_fail :
    ∀ (run run2 : String → List (List (String × String))) (command : String),
      functions.contains command = false →
        (api run command).response = [[("title", "not implemented")]] ∧
        (api run command).response.length = 1 ∧
        api run command = api run2 command := by
  intro run run2 command h
  have hm : ¬ (command ∈ functions) := by simpa using h
  refine ⟨?_, ?_, ?_⟩ <;> simp [api, hm, get_not_implemented]

/-- C4, witness at the unknown view name "nonexistent". -/
theorem api_unknown_view_soft_fail_witness :
    (api (fun _ => []) "nonexistent").response =
      [[("title", "not implemented")]] ∧
    (api (fun _ => []) "nonexistent").response.length = 1 ∧
    api (fun _ => []) "nonexistent" =
      api (fun _ => [[("other", "record")]]) "nonexistent" :=
  api_unknown_view_soft_fail _ _ "nonexistent" (by decide)

/-- C5: the anytime/"next" condition decomposes exactly as claimed — with no
active scope filter a task passes iff the task-level conditions hold and each
present container (direct project and head project) is schedule class
anytime, unscheduled and not trashed; with an active scope filter the
container condition weakens to not-trashed only, and the task-level
conditions are identical in both cases. -/
theorem anytime_container_condition :
    ∀ (isTaskType : Nat) (t : TaskRow) (p hp : Option TaskRow),
      (get_anytime_condition isTaskType false t p hp = true ↔
        (claim_taskLevel isTaskType t = true ∧
         claim_containerStrict p = true ∧ claim_containerStrict hp = true)) ∧
      (get_anytime_condition isTaskType true t p hp = true ↔
        (claim_taskLevel isTaskType t = true ∧
         claim_containerWeak p = true ∧ claim_containerWeak hp = true)) := by
  intro isTaskType t p hp
  constructor
  · simp only [get_anytime_condition]
    rw [if_neg (by simp), containerStrict_eq, containerStrict_eq]
    simp only [claim_taskLevel, Bool.and_eq_true]
    tauto
  · simp only [get_anytime_condition, if_true]
    rw [containerWeak_eq, containerWeak_eq]
    simp only [claim_taskLevel, Bool.and_eq_true]
    tauto

/-- C6: toggling the display mode twice restores the engine state exactly
(spec-modelled `toggle_mode`, which is absent from the source), hence every
subsequent view query — here the anytime predicate, parameterized by the
state's mode — gives identical results. -/
theorem toggle_toggle_is_identity :
    ∀ (s : EngineState),
      (api_toggle (api_toggle s).1).1 = s ∧
      (∀ (fA : Bool) (t : TaskRow) (p hp : Option TaskRow),
        get_anytime_condition (modeType (api_toggle (api_toggle s).1).1.mode)
            fA t p hp =
          get_anytime_condition (modeType s.mode) fA t p hp) := by
  intro s
  have h : (api_toggle (api_toggle s).1).1 = s := by
    rcases s with ⟨m, f⟩
    cases m <;> rfl
  exact ⟨h, fun fA t p hp => by rw [h]⟩

/-- C7, counterexample: with all three sources set, the effective value is
the explicit constructor argument, not the environment variable the claimed
priority order would pick. -/
theorem config_priority_cex :
    get_from_config (some "given") (some "fromenv") (some "fromfile") =
      some "given" ∧
    claimed_priority (some "given") (some "fromenv") (some "fromfile") =
      some "fromenv" ∧
    (some "given" : Option String) ≠ some "fromenv" := by
  refine ⟨rfl, rfl, by decide⟩

/-- C7, amended: for each configuration key the effective value is chosen in
the priority order explicit constructor argument first, then environment
variable, then config-file entry (each key falling back to its class-level
default when all three are falsy). -/
theorem config_priority_amended :
    ∀ (v e c : Option String) (user : String) (w a m cl d : KeyInputs),
      get_from_config v e c = amended_priority v e c ∧
      (things3_init user w a m cl d).tag_waiting =
        ifTruthy (amended_priority w.arg w.env w.cfg) "Waiting" ∧
      (things3_init user w a m cl d).tag_mit =
        ifTruthy (amended_priority m.arg m.env m.cfg) "MIT" ∧
      (things3_init user w a m cl d).tag_cleanup =
        ifTruthy (amended_priority cl.arg cl.env cl.cfg) "Cleanup" ∧
      (things3_init user w a m cl d).database =
        ifTruthy (amended_priority d.arg d.env d.cfg)
          ("/Users/" ++ user ++ FILE_DB) ∧
      (things3_init user w a m cl d).anonymize =
        (match amended_priority a.arg a.env a.cfg with
         | some s => if s.isEmpty then none else some s
         | none => none) := by
  intro v e c user w a m cl d
  refine ⟨get_from_config_eq_amended v e c, ?_, ?_, ?_, ?_, ?_⟩ <;>
    simp [things3_init, effectiveKey, effectiveAnonymize,
      get_from_config_eq_amended]

/-- C8, counterexample: a project whose sole open, non-trashed child row is
itself of project kind is reported with count 1, while the claimed count
(non-project-kind children only) is 0. -/
theorem largest_projects_counts_any_kind_cex :
    (get_largest_projects exDb8).head? =
      some (ProjRec.mk "p" (some "parent") none none 1) ∧
    claimed_childCount exDb8 "p" = 0 ∧ (1 : Nat) ≠ 0 := by
  refine ⟨by decide, by decide, by decide⟩

/-- C8, amended: every row of the largest-projects view carries the number of
non-trashed, open child rows of any kind whose parent project reference
equals the project's id, and the rows are ordered by that count
descending. -/
theorem largest_projects_amended :
    ∀ (db : List TaskRow),
      (∀ r, r ∈ get_largest_projects db →
        r.tasks = amended_childCount db r.uuid) ∧
      (get_largest_projects db).Pairwise (fun x y => y.tasks ≤ x.tasks) := by
  intro db
  constructor
  · intro r hr
    simp only [get_largest_projects] at hr
    rw [(List.perm_insertionSort _ _).mem_iff] at hr
    obtain ⟨t, _, rfl⟩ := List.mem_map.mp hr
    simp [amended_childCount, countOpenChildren,
      List.countP_eq_length_filter]
  · have hs := @List.sorted_insertionSort ProjRec
      (fun a b => b.tasks ≤ a.tasks) (fun a b => Nat.decLe _ _)
      ⟨fun a b => Nat.le_total b.tasks a.tasks⟩
      ⟨fun a b c h1 h2 => Nat.le_trans h2 h1⟩
      ((db.filter (fun t =>
        t.trashed == 0 && t.status == 0 && t.type == 1)).map
        (fun t => ProjRec.mk t.uuid t.title (t.creationDate.map dayOf)
          (t.userModificationDate.map dayOf) (countOpenChildren db t.uuid)))
    simpa only [get_largest_projects, List.Sorted] using hs

/-- C8, witness for the amended theorem: the head row of the view on `exDb8`
carries the amended child count of its project. -/
theorem largest_projects_amended_witness :
    (ProjRec.mk "p" (some "parent") none none 1).tasks =
      amended_childCount exDb8 (ProjRec.mk "p" (some "parent") none none 1).uuid :=
  (largest_projects_amended exDb8).1 _ (by decide)

/-- C9: for every entropy stream the scramble returns a string with the
identical character multiset — hence identical length — as the original, and
with anonymization enabled `execute_query` replaces the `title` and `context`
fields of every output record by their scrambled versions (leaving all other
fields unchanged) as the last step before returning the rows. -/
theorem anonymizer_preserves_characters :
    ∀ (seed : List Nat) (s : String) (recs : List TaskRec),
      (shuffleList seed s.data : Multiset Char) = (s.data : Multiset Char) ∧
      (String.mk (shuffleList seed s.data)).length = s.length ∧
      anonymize_string seed (some s) =
        some (String.mk (shuffleList seed s.data)) ∧
      execute_query seed true (Except.ok recs) =
        ExecResult.ok (recs.map (fun r =>
          { r with title := anonymize_string seed r.title,
                   context := anonymize_string seed r.context })) := by
  intro seed s recs
  refine ⟨Multiset.coe_eq_coe.mpr (shuffleList_perm seed s.data), ?_, rfl, rfl⟩
  show (shuffleList seed s.data).length = s.data.length
  exact (shuffleList_perm seed s.data).length_eq

/-- C10: a scope-filter call with an empty id, or with a kind that is neither
"area" nor "project", succeeds (status 200) but leaves the stored filter — and
therefore the overlay conjunct of every subsequent query — exactly unchanged;
only a non-empty id with kind "area" or "project" replaces the filter. -/
theorem filter_setter_frame :
    ∀ (s : Filter) (mode uuid : String) (db : List TaskRow) (t : TaskRow),
      ((uuid = "" ∨ (mode ≠ "area" ∧ mode ≠ "project")) →
        api_filter s mode uuid = (s, 200) ∧
        filterCond (api_filter s mode uuid).1 db t = filterCond s db t) ∧
      (uuid ≠ "" → api_filter s "area" uuid = (Filter.area uuid, 200)) ∧
      (uuid ≠ "" → api_filter s "project" uuid = (Filter.project uuid, 200)) := by
  intro s mode uuid db t
  refine ⟨?_, ?_, ?_⟩
  · rintro (rfl | ⟨h1, h2⟩)
    · constructor <;> simp [api_filter]
    · have e1 : (mode == "area") = false := by
        simpa using h1
      have e2 : (mode == "project") = false := by
        simpa using h2
      constructor <;> simp [api_filter, e1, e2]
  · intro h
    have e : (uuid != "") = true := by
      simpa using h
    simp [api_filter, e]
  · intro h
    have e : (uuid != "") = true := by
      simpa using h
    simp [api_filter, e]

/-- C10, witness: an unknown kind and an empty id both leave the filter
unchanged, and a non-empty project id replaces it. -/
theorem filter_setter_frame_witness :
    api_filter (Filter.area "a0") "color" "u1" = (Filter.area "a0", 200) ∧
    api_filter (Filter.area "a0") "project" "" = (Filter.area "a0", 200) ∧
    api_filter Filter.empty "project" "p1" = (Filter.project "p1", 200) :=
  ⟨((filter_setter_frame (Filter.area "a0") "color" "u1" [] blankTask).1
      (Or.inr ⟨by decide, by decide⟩)).1,
   ((filter_setter_frame (Filter.area "a0") "project" "" [] blankTask).1
      (Or.inl rfl)).1,
   (filter_setter_frame Filter.empty "project" "p1" [] blankTask).2.2
      (by decide)⟩

end Things3
